import Mathlib

/-!
Verification of the Design-Load-Profile web application's core
computation model (data_validator.py, energy_calculator.py and the
summary methods of load_profile_app.py), embedded shallowly in Lean.

Numbers are modelled as rationals.  A batch of appliance records is a
`List Record`; the twelve 2-hour intervals are indexed by `Fin 12`.
-/

/-- One row of the appliance catalogue.  Fields mirror the dataframe
columns: "Appliance", "Quantity", "Power (W)", "Duty Cycle (%)",
"Power Factor", "Use Time (%)", the twelve boolean time-period columns,
"Priority" and "Room". -/
structure Record where
  name : String
  quantity : ℚ
  power : ℚ
  dutyCycle : ℚ
  powerFactor : ℚ
  useTime : ℚ
  schedule : Fin 12 → Bool
  priority : String
  room : String

/-- pandas `Series.clip(lo, hi)` on a single value. -/
def clip (lo hi x : ℚ) : ℚ := min hi (max lo x)

/-- pandas `Series.clip(lo)` (lower bound only) on a single value. -/
def clipLo (lo x : ℚ) : ℚ := max lo x

/-- `DataValidator.validate_df`, per record: clip "Use Time (%)" to
[0,100], "Power (W)" to [0,∞), "Duty Cycle (%)" to [0,100],
"Power Factor" to [0.01,1.0], "Quantity" to [0,∞); other columns pass
through unchanged. -/
def validateRecord (r : Record) : Record :=
  { r with
    useTime := clip 0 100 r.useTime
    power := clipLo 0 r.power
    dutyCycle := clip 0 100 r.dutyCycle
    powerFactor := clip (1/100) 1 r.powerFactor
    quantity := clipLo 0 r.quantity }

/-- `DataValidator.validate_df` over a whole batch. -/
def validate_df (b : List Record) : List Record := b.map validateRecord

/-- `int(is_on)`: 1 when the schedule cell is checked, else 0. -/
def isOn (b : Bool) : ℚ := if b then 1 else 0

/-- `EnergyCalculator.compute_energy` at one time period:
`2 * qty * power * duty * use_time * int(is_on)` with
`duty = row["Duty Cycle (%)"]/100` and `use_time = row["Use Time (%)"]/100`. -/
def compute_energy (r : Record) (t : Fin 12) : ℚ :=
  2 * r.quantity * r.power * (r.dutyCycle / 100) * (r.useTime / 100) * isOn (r.schedule t)

/-- `EnergyCalculator.compute_average_power` at one time period:
`qty * power * int(is_on)`. -/
def compute_average_power (r : Record) (t : Fin 12) : ℚ :=
  r.quantity * r.power * isOn (r.schedule t)

/-- Python3 `round` to an integer: round half to even (banker's rounding),
on exact rationals. -/
def roundHalfEven (x : ℚ) : ℤ :=
  if x - (Int.floor x : ℚ) < 1/2 then Int.floor x
  else if 1/2 < x - (Int.floor x : ℚ) then Int.floor x + 1
  else if Int.floor x % 2 = 0 then Int.floor x else Int.floor x + 1

/-- `.round(1)`: round to one decimal place. -/
def round1 (x : ℚ) : ℚ := (roundHalfEven (10 * x) : ℚ) / 10

/-- The derived column set in `LoadProfileApp.run`:
`edited_df["Apparent Power (VA)"] = (edited_df["Power (W)"] / edited_df["Power Factor"]).round(1)`. -/
def apparentPower (r : Record) : ℚ := round1 (r.power / r.powerFactor)

/-- `energy_df[time_periods].sum(axis=1)`: a record's
"Total Daily Energy (Wh)" column. -/
def total_daily_energy (r : Record) : ℚ :=
  ((List.finRange 12).map (compute_energy r)).sum

/-- `edited_df["Total Daily Energy (Wh)"].sum()`: total daily energy of
the whole batch. -/
def totalEnergy (b : List Record) : ℚ := (b.map total_daily_energy).sum

/-- The concrete scenario record of the spec: quantity=1, power_watts=100,
duty_cycle_pct=100, power_factor=1.0, use_time_pct=50, scheduled only in
interval 0, priority "essential". -/
def scenarioRec : Record :=
  { name := "Scenario"
    quantity := 1
    power := 100
    dutyCycle := 100
    powerFactor := 1
    useTime := 50
    schedule := fun t => decide (t = 0)
    priority := "essential"
    room := "Kitchen" }

/-- numpy `.max()` over the 12-entry vector produced by `.sum(axis=0)`:
the maximum of a 12-interval profile. -/
def maxOfProfile (f : Fin 12 → ℚ) : ℚ :=
  max (f 0) (max (f 1) (max (f 2) (max (f 3) (max (f 4) (max (f 5)
    (max (f 6) (max (f 7) (max (f 8) (max (f 9) (max (f 10) (f 11)))))))))))

/-- One interval's column sum in `EnergyCalculator.calculate_peak_loads`:
`(df[time_periods].astype(int).values * (df["Quantity"] * df["Power (W)"]).values.reshape(-1,1)).sum(axis=0)`
at time period `t`. -/
def realLoadAt (b : List Record) (t : Fin 12) : ℚ :=
  (b.map (fun r => isOn (r.schedule t) * (r.quantity * r.power))).sum

/-- Same column sum with the "Apparent Power (VA)" column in place of
"Power (W)". -/
def apparentLoadAt (b : List Record) (t : Fin 12) : ℚ :=
  (b.map (fun r => isOn (r.schedule t) * (r.quantity * apparentPower r))).sum

/-- First component of `EnergyCalculator.calculate_peak_loads`. -/
def peak_load_real (b : List Record) : ℚ := maxOfProfile (realLoadAt b)

/-- Second component of `EnergyCalculator.calculate_peak_loads`. -/
def peak_load_apparent (b : List Record) : ℚ := maxOfProfile (apparentLoadAt b)

/-- pandas `.str.lower()` on one cell, mapped over the characters. -/
def lowerString (s : String) : String := String.mk (s.data.map Char.toLower)

/-- `df["Priority"].str.lower() == "essential"`. -/
def isEssential (r : Record) : Bool := lowerString r.priority == "essential"

/-- `df["Priority"].str.lower().isin(["essential", "medium"])`. -/
def isEssentialMedium (r : Record) : Bool :=
  lowerString r.priority == "essential" || lowerString r.priority == "medium"

/-- One interval's column sum of the tiered peak-real computation in
`_display_essential_only_summary` / `_display_essential_medium_summary`:
`(tier_df[time_periods].astype(int).values * (tier_df["Quantity"] * tier_df["Power (W)"] * tier_df["Use Time (%)"] / 100).values.reshape(-1,1)).sum(axis=0)`. -/
def tierRealLoadAt (rows : List Record) (t : Fin 12) : ℚ :=
  (rows.map (fun r => isOn (r.schedule t) * (r.quantity * r.power * r.useTime / 100))).sum

/-- One interval's column sum of the tiered peak-apparent computation,
with the "Apparent Power (VA)" column. -/
def tierApparentLoadAt (rows : List Record) (t : Fin 12) : ℚ :=
  (rows.map (fun r => isOn (r.schedule t) * (r.quantity * apparentPower r * r.useTime / 100))).sum

/-- `essential_peak_load_real` for the essential-only tier. -/
def essentialPeakReal (b : List Record) : ℚ :=
  maxOfProfile (tierRealLoadAt (b.filter isEssential))

/-- `essential_peak_load_apparent` for the essential-only tier. -/
def essentialPeakApparent (b : List Record) : ℚ :=
  maxOfProfile (tierApparentLoadAt (b.filter isEssential))

/-- `essential_medium_peak_load_real`. -/
def essentialMediumPeakReal (b : List Record) : ℚ :=
  maxOfProfile (tierRealLoadAt (b.filter isEssentialMedium))

/-- `essential_medium_peak_load_apparent`. -/
def essentialMediumPeakApparent (b : List Record) : ℚ :=
  maxOfProfile (tierApparentLoadAt (b.filter isEssentialMedium))

/-- `(tier_peak_apparent / peak_load_apparent * 100) if peak_load_apparent > 0 else 0`. -/
def loadAllocation (tierPeakApp allPeakApp : ℚ) : ℚ :=
  if 0 < allPeakApp then tierPeakApp / allPeakApp * 100 else 0

/-- `essential_load_allocation`. -/
def essentialLoadAllocation (b : List Record) : ℚ :=
  loadAllocation (essentialPeakApparent b) (peak_load_apparent b)

/-- `essential_medium_load_allocation`. -/
def essentialMediumLoadAllocation (b : List Record) : ℚ :=
  loadAllocation (essentialMediumPeakApparent b) (peak_load_apparent b)

/-- `energy_df[energy_df["Appliance"].isin(tier_df["Appliance"])][time_periods].sum().sum()`:
the tier's daily energy total selects energy rows by appliance-name
membership in the filtered subset. -/
def tierTotalEnergy (b : List Record) (p : Record → Bool) : ℚ :=
  (((b.filter (fun r => ((b.filter p).map Record.name).contains r.name)).map
    total_daily_energy)).sum

/-- `essential_total_energy`. -/
def essentialTotalEnergy (b : List Record) : ℚ := tierTotalEnergy b isEssential

/-- `essential_medium_total_energy`. -/
def essentialMediumTotalEnergy (b : List Record) : ℚ :=
  tierTotalEnergy b isEssentialMedium

/-- The five metrics a tier summary displays: daily energy, peak real
power, peak apparent power, load percentage, record count. -/
structure TierSummary where
  energyWh : ℚ
  peakRealW : ℚ
  peakApparentVA : ℚ
  loadPct : ℚ
  count : ℕ
deriving DecidableEq

/-- `_display_essential_only_summary`: the metrics are computed and shown
only under `if not essential_df.empty:`; an empty tier yields no summary. -/
def essentialOnlySummary (b : List Record) : Option TierSummary :=
  if (b.filter isEssential).isEmpty then none
  else some
    { energyWh := essentialTotalEnergy b
      peakRealW := essentialPeakReal b
      peakApparentVA := essentialPeakApparent b
      loadPct := essentialLoadAllocation b
      count := (b.filter isEssential).length }

/-- `_display_essential_medium_summary`: likewise guarded by
`if not essential_medium_df.empty:`. -/
def essentialMediumSummary (b : List Record) : Option TierSummary :=
  if (b.filter isEssentialMedium).isEmpty then none
  else some
    { energyWh := essentialMediumTotalEnergy b
      peakRealW := essentialMediumPeakReal b
      peakApparentVA := essentialMediumPeakApparent b
      loadPct := essentialMediumLoadAllocation b
      count := (b.filter isEssentialMedium).length }

/-- A profile maximum: an upper bound on all 12 interval values that is
attained at some interval. -/
def IsMaxOf (f : Fin 12 → ℚ) (m : ℚ) : Prop :=
  (∀ t, f t ≤ m) ∧ ∃ t, m = f t

/-- The spec's scenario record with its priority capitalised, to exercise
the case-insensitive tier match. -/
def capEssRec : Record := { scenarioRec with priority := "Essential" }

/-- A validated record with fractional power rating: power_watts = 0.94,
power_factor = 1.0. -/
def fractionalRec : Record :=
  { name := "Lamp"
    quantity := 1
    power := 47/50
    dutyCycle := 100
    powerFactor := 1
    useTime := 100
    schedule := fun _ => true
    priority := "essential"
    room := "Study" }

/-- A non-essential record, making both filtered tiers empty. -/
def nonEssRec : Record :=
  { name := "TV"
    quantity := 1
    power := 100
    dutyCycle := 100
    powerFactor := 1
    useTime := 100
    schedule := fun _ => true
    priority := "non-essential"
    room := "Lounge" }

/-- An essential record named "Fridge": daily energy 2*1*100*1*0.5 = 100 Wh. -/
def duplicateEssRec : Record :=
  { name := "Fridge"
    quantity := 1
    power := 100
    dutyCycle := 100
    powerFactor := 1
    useTime := 50
    schedule := fun t => decide (t = 0)
    priority := "essential"
    room := "Kitchen" }

/-- A non-essential record with the same name "Fridge": daily energy
2*1*200*1*1 = 400 Wh. -/
def duplicateNonEssRec : Record :=
  { name := "Fridge"
    quantity := 1
    power := 200
    dutyCycle := 100
    powerFactor := 1
    useTime := 100
    schedule := fun t => decide (t = 1)
    priority := "non-essential"
    room := "Garage" }

/-- A batch holding two records that share an appliance name but carry
different priorities. -/
def duplicateNameBatch : List Record := [duplicateEssRec, duplicateNonEssRec]

/-- C1: per-interval energy equals
`2 * quantity * power * (duty/100) * (use/100)` when the interval is
scheduled and exactly 0 otherwise; for the concrete record
(quantity 1, power 100 W, duty 100 %, use time 50 %, scheduled only in
interval 0) the energy is 100 Wh in interval 0 and 0 elsewhere. -/
theorem compute_energy_spec :
    (∀ (r : Record) (t : Fin 12),
      compute_energy r t =
        if r.schedule t then
          2 * r.quantity * r.power * (r.dutyCycle / 100) * (r.useTime / 100)
        else 0)
    ∧ (∀ t : Fin 12, compute_energy scenarioRec t = if t = 0 then 100 else 0) := by
  constructor
  · intro r t
    unfold compute_energy isOn
    by_cases h : r.schedule t <;> simp [h]
  · intro t
    fin_cases t <;> norm_num [compute_energy, scenarioRec, isOn]

/-- C2: per-interval average power equals `quantity * power` when the
interval is scheduled and 0 otherwise, with no duty-cycle or use-time
derating; for the concrete record (quantity 1, power 100 W, use time
50 %, scheduled in interval 0) the average power in interval 0 is 100 W. -/
theorem compute_average_power_spec :
    (∀ (r : Record) (t : Fin 12),
      compute_average_power r t =
        if r.schedule t then r.quantity * r.power else 0)
    ∧ compute_average_power scenarioRec 0 = 100 := by
  constructor
  · intro r t
    unfold compute_average_power isOn
    by_cases h : r.schedule t <;> simp [h]
  · norm_num [compute_average_power, scenarioRec, isOn]

theorem le_maxOfProfile (f : Fin 12 → ℚ) (t : Fin 12) : f t ≤ maxOfProfile f := by
  unfold maxOfProfile
  fin_cases t
  · exact le_max_left _ _
  · exact le_max_of_le_right (le_max_left _ _)
  · exact le_max_of_le_right (le_max_of_le_right (le_max_left _ _))
  · exact le_max_of_le_right (le_max_of_le_right (le_max_of_le_right (le_max_left _ _)))
  · exact le_max_of_le_right (le_max_of_le_right (le_max_of_le_right (le_max_of_le_right
      (le_max_left _ _))))
  · exact le_max_of_le_right (le_max_of_le_right (le_max_of_le_right (le_max_of_le_right
      (le_max_of_le_right (le_max_left _ _)))))
  · exact le_max_of_le_right (le_max_of_le_right (le_max_of_le_right (le_max_of_le_right
      (le_max_of_le_right (le_max_of_le_right (le_max_left _ _))))))
  · exact le_max_of_le_right (le_max_of_le_right (le_max_of_le_right (le_max_of_le_right
      (le_max_of_le_right (le_max_of_le_right (le_max_of_le_right (le_max_left _ _)))))))
  · exact le_max_of_le_right (le_max_of_le_right (le_max_of_le_right (le_max_of_le_right
      (le_max_of_le_right (le_max_of_le_right (le_max_of_le_right (le_max_of_le_right
      (le_max_left _ _))))))))
  · exact le_max_of_le_right (le_max_of_le_right (le_max_of_le_right (le_max_of_le_right
      (le_max_of_le_right (le_max_of_le_right (le_max_of_le_right (le_max_of_le_right
      (le_max_of_le_right (le_max_left _ _)))))))))
  · exact le_max_of_le_right (le_max_of_le_right (le_max_of_le_right (le_max_of_le_right
      (le_max_of_le_right (le_max_of_le_right (le_max_of_le_right (le_max_of_le_right
      (le_max_of_le_right (le_max_of_le_right (le_max_left _ _))))))))))
  · exact le_max_of_le_right (le_max_of_le_right (le_max_of_le_right (le_max_of_le_right
      (le_max_of_le_right (le_max_of_le_right (le_max_of_le_right (le_max_of_le_right
      (le_max_of_le_right (le_max_of_le_right (le_max_of_le_right (le_refl _)))))))))))

theorem maxOfProfile_attained (f : Fin 12 → ℚ) : ∃ t, maxOfProfile f = f t := by
  unfold maxOfProfile
  rcases max_choice (f 0) _ with h | h
  · exact ⟨0, h⟩
  rw [h]
  rcases max_choice (f 1) _ with h | h
  · exact ⟨1, h⟩
  rw [h]
  rcases max_choice (f 2) _ with h | h
  · exact ⟨2, h⟩
  rw [h]
  rcases max_choice (f 3) _ with h | h
  · exact ⟨3, h⟩
  rw [h]
  rcases max_choice (f 4) _ with h | h
  · exact ⟨4, h⟩
  rw [h]
  rcases max_choice (f 5) _ with h | h
  · exact ⟨5, h⟩
  rw [h]
  rcases max_choice (f 6) _ with h | h
  · exact ⟨6, h⟩
  rw [h]
  rcases max_choice (f 7) _ with h | h
  · exact ⟨7, h⟩
  rw [h]
  rcases max_choice (f 8) _ with h | h
  · exact ⟨8, h⟩
  rw [h]
  rcases max_choice (f 9) _ with h | h
  · exact ⟨9, h⟩
  rw [h]
  rcases max_choice (f 10) (f 11) with h | h
  · exact ⟨10, h⟩
  · exact ⟨11, h⟩

theorem isMaxOf_maxOfProfile (f : Fin 12 → ℚ) : IsMaxOf f (maxOfProfile f) :=
  ⟨le_maxOfProfile f, maxOfProfile_attained f⟩

theorem maxOfProfile_mono {f g : Fin 12 → ℚ} (h : ∀ t, f t ≤ g t) :
    maxOfProfile f ≤ maxOfProfile g := by
  unfold maxOfProfile
  exact max_le_max (h 0) (max_le_max (h 1) (max_le_max (h 2) (max_le_max (h 3)
    (max_le_max (h 4) (max_le_max (h 5) (max_le_max (h 6) (max_le_max (h 7)
    (max_le_max (h 8) (max_le_max (h 9) (max_le_max (h 10) (h 11)))))))))))

theorem maxOfProfile_congr {f g : Fin 12 → ℚ} (h : ∀ t, f t = g t) :
    maxOfProfile f = maxOfProfile g := by
  unfold maxOfProfile
  rw [h 0, h 1, h 2, h 3, h 4, h 5, h 6, h 7, h 8, h 9, h 10, h 11]

theorem maxOfProfile_nonneg {f : Fin 12 → ℚ} (h : ∀ t, 0 ≤ f t) :
    0 ≤ maxOfProfile f :=
  le_trans (h 0) (le_maxOfProfile f 0)

/-- C3: the all-appliances peak real load is the maximum over the 12
intervals of the unfiltered per-interval sum of
`quantity * power_watts * is_on(schedule[t])`, with no use-time or
duty-cycle scaling, and the peak apparent load is the identical
computation with the apparent-power column substituted for real power. -/
theorem calculate_peak_loads_spec (b : List Record) :
    (∀ t, realLoadAt b t =
      (b.map (fun r => r.quantity * r.power * isOn (r.schedule t))).sum) ∧
    IsMaxOf (realLoadAt b) (peak_load_real b) ∧
    (∀ t, apparentLoadAt b t =
      (b.map (fun r => r.quantity * apparentPower r * isOn (r.schedule t))).sum) ∧
    IsMaxOf (apparentLoadAt b) (peak_load_apparent b) := by
  refine ⟨?_, isMaxOf_maxOfProfile _, ?_, isMaxOf_maxOfProfile _⟩
  · intro t
    unfold realLoadAt
    exact congrArg List.sum (List.map_congr_left (fun r _ => by ring))
  · intro t
    unfold apparentLoadAt
    exact congrArg List.sum (List.map_congr_left (fun r _ => by ring))

theorem isEssential_capEssRec : isEssential capEssRec = true := by decide

theorem filter_capEssRec : List.filter isEssential [capEssRec] = [capEssRec] := by
  simp [List.filter_cons, isEssential_capEssRec]

theorem tierRealLoadAt_capEssRec (t : Fin 12) :
    tierRealLoadAt [capEssRec] t = if t = 0 then 50 else 0 := by
  by_cases h : t = 0
  · subst h
    norm_num [tierRealLoadAt, capEssRec, scenarioRec, isOn]
  · simp [tierRealLoadAt, capEssRec, scenarioRec, isOn, h]

theorem realLoadAt_capEssRec (t : Fin 12) :
    realLoadAt [capEssRec] t = if t = 0 then 100 else 0 := by
  by_cases h : t = 0
  · subst h
    norm_num [realLoadAt, capEssRec, scenarioRec, isOn]
  · simp [realLoadAt, capEssRec, scenarioRec, isOn, h]

set_option maxRecDepth 8000 in
theorem essentialPeakReal_capEssRec : essentialPeakReal [capEssRec] = 50 := by
  unfold essentialPeakReal
  rw [filter_capEssRec, maxOfProfile_congr tierRealLoadAt_capEssRec]
  simp +decide [maxOfProfile]

set_option maxRecDepth 8000 in
theorem peak_load_real_capEssRec : peak_load_real [capEssRec] = 100 := by
  unfold peak_load_real
  rw [maxOfProfile_congr realLoadAt_capEssRec]
  simp +decide [maxOfProfile]

/-- C4: the tiered peak loads are the maxima over the 12 intervals of the
per-interval sums, over the case-insensitively filtered tier subset, of
`quantity * power * use_time_pct/100 * is_on(schedule[t])` (respectively
with apparent power); unlike the unfiltered peak they carry the
`use_time_pct/100` factor.  For a single "Essential" record with
power 100 W and use time 50 % scheduled in interval 0, the essential-tier
peak real power is 50 W while the unfiltered peak real power is 100 W. -/
theorem tiered_peak_loads_spec (b : List Record) :
    (∀ t, tierRealLoadAt (b.filter isEssential) t =
      ((b.filter isEssential).map
        (fun r => r.quantity * r.power * (r.useTime / 100) * isOn (r.schedule t))).sum) ∧
    (∀ t, tierApparentLoadAt (b.filter isEssentialMedium) t =
      ((b.filter isEssentialMedium).map
        (fun r => r.quantity * apparentPower r * (r.useTime / 100) * isOn (r.schedule t))).sum) ∧
    IsMaxOf (tierRealLoadAt (b.filter isEssential)) (essentialPeakReal b) ∧
    IsMaxOf (tierApparentLoadAt (b.filter isEssential)) (essentialPeakApparent b) ∧
    IsMaxOf (tierRealLoadAt (b.filter isEssentialMedium)) (essentialMediumPeakReal b) ∧
    IsMaxOf (tierApparentLoadAt (b.filter isEssentialMedium)) (essentialMediumPeakApparent b) ∧
    essentialPeakReal [capEssRec] = 50 ∧
    peak_load_real [capEssRec] = 100 := by
  refine ⟨?_, ?_, isMaxOf_maxOfProfile _, isMaxOf_maxOfProfile _,
    isMaxOf_maxOfProfile _, isMaxOf_maxOfProfile _,
    essentialPeakReal_capEssRec, peak_load_real_capEssRec⟩
  · intro t
    unfold tierRealLoadAt
    exact congrArg List.sum (List.map_congr_left (fun r _ => by ring))
  · intro t
    unfold tierApparentLoadAt
    exact congrArg List.sum (List.map_congr_left (fun r _ => by ring))

theorem isOn_nonneg (s : Bool) : 0 ≤ isOn s := by
  unfold isOn
  split <;> norm_num

theorem isOn_le_one (s : Bool) : isOn s ≤ 1 := by
  unfold isOn
  split <;> norm_num

theorem validateRecord_quantity_nonneg (r : Record) :
    0 ≤ (validateRecord r).quantity :=
  le_max_left 0 r.quantity

theorem validateRecord_power_nonneg (r : Record) : 0 ≤ (validateRecord r).power :=
  le_max_left 0 r.power

theorem validateRecord_useTime_nonneg (r : Record) :
    0 ≤ (validateRecord r).useTime :=
  le_min (by norm_num) (le_max_left 0 r.useTime)

theorem validateRecord_useTime_le (r : Record) : (validateRecord r).useTime ≤ 100 :=
  min_le_left 100 (max 0 r.useTime)

theorem validateRecord_dutyCycle_nonneg (r : Record) :
    0 ≤ (validateRecord r).dutyCycle :=
  le_min (by norm_num) (le_max_left 0 r.dutyCycle)

theorem validateRecord_dutyCycle_le (r : Record) :
    (validateRecord r).dutyCycle ≤ 100 :=
  min_le_left 100 (max 0 r.dutyCycle)

theorem validateRecord_powerFactor_pos (r : Record) :
    0 < (validateRecord r).powerFactor :=
  lt_of_lt_of_le (by norm_num)
    (le_min (by norm_num) (le_max_left (1/100) r.powerFactor))

theorem validateRecord_powerFactor_le_one (r : Record) :
    (validateRecord r).powerFactor ≤ 1 :=
  min_le_left 1 (max (1/100) r.powerFactor)

theorem roundHalfEven_nonneg {x : ℚ} (h : 0 ≤ x) : 0 ≤ roundHalfEven x := by
  have hf : 0 ≤ Int.floor x := Int.floor_nonneg.mpr h
  unfold roundHalfEven
  by_cases h1 : x - (Int.floor x : ℚ) < 1/2
  · rw [if_pos h1]; exact hf
  rw [if_neg h1]
  by_cases h2 : 1/2 < x - (Int.floor x : ℚ)
  · rw [if_pos h2]; omega
  rw [if_neg h2]
  by_cases h3 : Int.floor x % 2 = 0
  · rw [if_pos h3]; exact hf
  · rw [if_neg h3]; omega

theorem roundHalfEven_ge (x : ℚ) : x - 1/2 ≤ (roundHalfEven x : ℚ) := by
  have hfu : x < (Int.floor x : ℚ) + 1 := Int.lt_floor_add_one x
  unfold roundHalfEven
  by_cases h1 : x - (Int.floor x : ℚ) < 1/2
  · rw [if_pos h1]; linarith
  rw [if_neg h1]
  by_cases h2 : 1/2 < x - (Int.floor x : ℚ)
  · rw [if_pos h2]; push_cast; linarith
  rw [if_neg h2]
  have h2le : x - (Int.floor x : ℚ) ≤ 1/2 := not_lt.mp h2
  by_cases h3 : Int.floor x % 2 = 0
  · rw [if_pos h3]; linarith
  · rw [if_neg h3]; push_cast; linarith

theorem round1_ge (x : ℚ) : x - 1/20 ≤ round1 x := by
  unfold round1
  have h := roundHalfEven_ge (10 * x)
  linarith

theorem round1_nonneg {x : ℚ} (h : 0 ≤ x) : 0 ≤ round1 x := by
  unfold round1
  have h0 : 0 ≤ roundHalfEven (10 * x) := roundHalfEven_nonneg (by linarith)
  have h1 : (0 : ℚ) ≤ (roundHalfEven (10 * x) : ℚ) := by exact_mod_cast h0
  linarith

theorem apparentPower_validated_nonneg (r : Record) :
    0 ≤ apparentPower (validateRecord r) := by
  unfold apparentPower
  exact round1_nonneg (div_nonneg (validateRecord_power_nonneg r)
    (le_of_lt (validateRecord_powerFactor_pos r)))

/-- C6 counterexample: the validated record with power_watts = 0.94 and
power_factor = 1.0 has apparent_power_va = round(0.94, 1) = 0.9, strictly
below its power_watts. -/
theorem apparent_lt_real_counterexample :
    apparentPower (validateRecord fractionalRec) < (validateRecord fractionalRec).power := by
  have hpow : (validateRecord fractionalRec).power = 47/50 := by
    norm_num [validateRecord, fractionalRec, clipLo, max_def]
  have hpf : (validateRecord fractionalRec).powerFactor = 1 := by
    norm_num [validateRecord, fractionalRec, clip, max_def, min_def]
  have hfloor : Int.floor ((10 : ℚ) * (47/50 / 1)) = 9 := by
    norm_num [Int.floor_eq_iff]
  have h : apparentPower (validateRecord fractionalRec) = 9/10 := by
    unfold apparentPower round1 roundHalfEven
    rw [hpow, hpf, hfloor]
    norm_num
  rw [h, hpow]
  norm_num

/-- C6 amended: post-validation the unrounded apparent power dominates the
real power, and the rounded apparent power can fall below it by at most
1/20 (one half of the last retained decimal). -/
theorem apparent_vs_real_amended (r : Record) :
    (validateRecord r).power ≤
      (validateRecord r).power / (validateRecord r).powerFactor ∧
    (validateRecord r).power - 1/20 ≤ apparentPower (validateRecord r) := by
  have hp := validateRecord_power_nonneg r
  have hpf0 := validateRecord_powerFactor_pos r
  have hpf1 := validateRecord_powerFactor_le_one r
  have hdiv : (validateRecord r).power ≤
      (validateRecord r).power / (validateRecord r).powerFactor := by
    rw [le_div_iff₀ hpf0]
    exact mul_le_of_le_one_right hp hpf1
  refine ⟨hdiv, ?_⟩
  have hr := round1_ge ((validateRecord r).power / (validateRecord r).powerFactor)
  unfold apparentPower
  linarith

theorem sum_map_filter_le {α : Type} (l : List α) (p : α → Bool) (f g : α → ℚ)
    (hg : ∀ a ∈ l, 0 ≤ g a) (hfg : ∀ a ∈ l, p a = true → f a ≤ g a) :
    ((l.filter p).map f).sum ≤ (l.map g).sum := by
  induction l with
  | nil => simp
  | cons a l ih =>
    have hga : 0 ≤ g a := hg a (List.mem_cons_self a l)
    have ihh := ih (fun x hx => hg x (List.mem_cons_of_mem a hx))
      (fun x hx hpx => hfg x (List.mem_cons_of_mem a hx) hpx)
    by_cases hpa : p a
    · rw [List.filter_cons_of_pos hpa]
      simp only [List.map_cons, List.sum_cons]
      exact add_le_add (hfg a (List.mem_cons_self a l) hpa) ihh
    · rw [List.filter_cons_of_neg hpa]
      simp only [List.map_cons, List.sum_cons]
      linarith

theorem tier_term_le_all_term (r : Record) (t : Fin 12)
    (hq : 0 ≤ r.quantity) (ha : 0 ≤ apparentPower r)
    (hu1 : r.useTime ≤ 100) :
    isOn (r.schedule t) * (r.quantity * apparentPower r * r.useTime / 100) ≤
      isOn (r.schedule t) * (r.quantity * apparentPower r) := by
  have hbase : 0 ≤ isOn (r.schedule t) * (r.quantity * apparentPower r) :=
    mul_nonneg (isOn_nonneg _) (mul_nonneg hq ha)
  have heq : isOn (r.schedule t) * (r.quantity * apparentPower r * r.useTime / 100)
      = isOn (r.schedule t) * (r.quantity * apparentPower r) * (r.useTime / 100) := by
    ring
  rw [heq]
  have hdiv : r.useTime / 100 ≤ 1 := by
    rw [div_le_one (by norm_num : (0:ℚ) < 100)]
    exact hu1
  calc isOn (r.schedule t) * (r.quantity * apparentPower r) * (r.useTime / 100)
      ≤ isOn (r.schedule t) * (r.quantity * apparentPower r) * 1 :=
        mul_le_mul_of_nonneg_left hdiv hbase
    _ = isOn (r.schedule t) * (r.quantity * apparentPower r) := mul_one _

theorem tierApparentPeak_le (b : List Record) (q : Record → Bool) :
    maxOfProfile (tierApparentLoadAt ((validate_df b).filter q)) ≤
      peak_load_apparent (validate_df b) := by
  unfold peak_load_apparent
  apply maxOfProfile_mono
  intro t
  unfold tierApparentLoadAt apparentLoadAt
  apply sum_map_filter_le
  · intro r hr
    unfold validate_df at hr
    obtain ⟨r0, _, rfl⟩ := List.mem_map.mp hr
    exact mul_nonneg (isOn_nonneg _)
      (mul_nonneg (validateRecord_quantity_nonneg r0) (apparentPower_validated_nonneg r0))
  · intro r hr _
    unfold validate_df at hr
    obtain ⟨r0, _, rfl⟩ := List.mem_map.mp hr
    exact tier_term_le_all_term _ t (validateRecord_quantity_nonneg r0)
      (apparentPower_validated_nonneg r0) (validateRecord_useTime_le r0)

theorem tierApparentPeak_nonneg (b : List Record) (q : Record → Bool) :
    0 ≤ maxOfProfile (tierApparentLoadAt ((validate_df b).filter q)) := by
  apply maxOfProfile_nonneg
  intro t
  unfold tierApparentLoadAt
  apply List.sum_nonneg
  intro x hx
  simp only [List.mem_map] at hx
  obtain ⟨r, hr, rfl⟩ := hx
  have hr2 : r ∈ validate_df b := List.mem_of_mem_filter hr
  unfold validate_df at hr2
  obtain ⟨r0, _, rfl⟩ := List.mem_map.mp hr2
  refine mul_nonneg (isOn_nonneg _) (div_nonneg ?_ (by norm_num))
  exact mul_nonneg
    (mul_nonneg (validateRecord_quantity_nonneg r0) (apparentPower_validated_nonneg r0))
    (validateRecord_useTime_nonneg r0)

theorem loadAllocation_bounds {tp ap : ℚ} (h0 : 0 ≤ tp) (h1 : tp ≤ ap) :
    0 ≤ loadAllocation tp ap ∧ loadAllocation tp ap ≤ 100 := by
  unfold loadAllocation
  by_cases h : 0 < ap
  · rw [if_pos h]
    constructor
    · positivity
    · have hd : tp / ap ≤ 1 := (div_le_one h).mpr h1
      nlinarith
  · rw [if_neg h]
    norm_num

/-- C5: the load allocation percentage is tier_peak_apparent /
all_peak_apparent * 100 when the all-tier peak apparent power is positive
and 0 when it is 0 (no division error), and on every validated batch both
tiered allocation percentages lie in [0, 100]. -/
theorem load_allocation_spec (b : List Record) (x y : ℚ) (hy : 0 < y) :
    loadAllocation x y = x / y * 100 ∧
    loadAllocation x 0 = 0 ∧
    (0 ≤ essentialLoadAllocation (validate_df b) ∧
      essentialLoadAllocation (validate_df b) ≤ 100) ∧
    (0 ≤ essentialMediumLoadAllocation (validate_df b) ∧
      essentialMediumLoadAllocation (validate_df b) ≤ 100) := by
  refine ⟨?_, ?_, ?_, ?_⟩
  · unfold loadAllocation
    rw [if_pos hy]
  · unfold loadAllocation
    rw [if_neg (by norm_num)]
  · unfold essentialLoadAllocation essentialPeakApparent
    exact loadAllocation_bounds (tierApparentPeak_nonneg b isEssential)
      (tierApparentPeak_le b isEssential)
  · unfold essentialMediumLoadAllocation essentialMediumPeakApparent
    exact loadAllocation_bounds (tierApparentPeak_nonneg b isEssentialMedium)
      (tierApparentPeak_le b isEssentialMedium)

/-- Witness for C5: instantiated at the empty batch and y = 100 > 0. -/
theorem load_allocation_spec_witness :
    (0 : ℚ) < 100 ∧
    (loadAllocation 50 100 = 50 / 100 * 100 ∧
      loadAllocation 50 0 = 0 ∧
      (0 ≤ essentialLoadAllocation (validate_df []) ∧
        essentialLoadAllocation (validate_df []) ≤ 100) ∧
      (0 ≤ essentialMediumLoadAllocation (validate_df []) ∧
        essentialMediumLoadAllocation (validate_df []) ≤ 100)) :=
  ⟨by norm_num, load_allocation_spec [] 50 100 (by norm_num)⟩

theorem isEssential_validated_nonEssRec :
    isEssential (validateRecord nonEssRec) = false := by decide

theorem isEssentialMedium_validated_nonEssRec :
    isEssentialMedium (validateRecord nonEssRec) = false := by decide

/-- C7 counterexample: the validated batch holding one non-essential
record has empty essential and essential+medium tiers, and neither tier
summary is produced — no zero-valued summary appears. -/
theorem empty_tier_summary_counterexample :
    essentialOnlySummary (validate_df [nonEssRec]) = none ∧
    essentialMediumSummary (validate_df [nonEssRec]) = none := by
  have hfil1 : List.filter isEssential (validate_df [nonEssRec]) = [] := by
    simp [validate_df, List.filter_cons, isEssential_validated_nonEssRec]
  have hfil2 : List.filter isEssentialMedium (validate_df [nonEssRec]) = [] := by
    simp [validate_df, List.filter_cons, isEssentialMedium_validated_nonEssRec]
  constructor
  · unfold essentialOnlySummary
    rw [hfil1]
    rfl
  · unfold essentialMediumSummary
    rw [hfil2]
    rfl

/-- C7 amended: an empty filtered tier is not an error, but the
corresponding tier summary is skipped entirely — the summary is absent
exactly when the filtered subset is empty, and no zero-valued summary is
emitted. -/
theorem empty_tier_summary_amended (b : List Record) :
    (essentialOnlySummary b = none ↔ b.filter isEssential = []) ∧
    (essentialMediumSummary b = none ↔ b.filter isEssentialMedium = []) := by
  constructor
  · unfold essentialOnlySummary
    by_cases h : (b.filter isEssential).isEmpty
    · rw [if_pos h]
      rw [List.isEmpty_iff] at h
      simp [h]
    · rw [if_neg h]
      rw [List.isEmpty_iff] at h
      simp [h]
  · unfold essentialMediumSummary
    by_cases h : (b.filter isEssentialMedium).isEmpty
    · rw [if_pos h]
      rw [List.isEmpty_iff] at h
      simp [h]
    · rw [if_neg h]
      rw [List.isEmpty_iff] at h
      simp [h]

theorem isEssential_imp_essentialMedium (r : Record) :
    isEssential r = true → isEssentialMedium r = true := by
  unfold isEssential isEssentialMedium
  intro h
  rw [h]
  rfl

theorem contains_names_mono (b : List Record) (n : String)
    (h : (((b.filter isEssential).map Record.name).contains n) = true) :
    (((b.filter isEssentialMedium).map Record.name).contains n) = true := by
  have hmem : n ∈ (b.filter isEssential).map Record.name :=
    List.mem_of_elem_eq_true h
  obtain ⟨r, hr, hname⟩ := List.mem_map.mp hmem
  have hr2 := List.mem_filter.mp hr
  exact List.elem_eq_true_of_mem (List.mem_map.mpr
    ⟨r, List.mem_filter.mpr ⟨hr2.1, isEssential_imp_essentialMedium r hr2.2⟩, hname⟩)

theorem total_daily_energy_validated_nonneg (r : Record) :
    0 ≤ total_daily_energy (validateRecord r) := by
  unfold total_daily_energy
  apply List.sum_nonneg
  intro x hx
  simp only [List.mem_map] at hx
  obtain ⟨t, _, rfl⟩ := hx
  unfold compute_energy
  have hq := validateRecord_quantity_nonneg r
  have hp := validateRecord_power_nonneg r
  have hd := validateRecord_dutyCycle_nonneg r
  have hu := validateRecord_useTime_nonneg r
  refine mul_nonneg (mul_nonneg (mul_nonneg (mul_nonneg ?_ hp) ?_) ?_) (isOn_nonneg _)
  · linarith
  · exact div_nonneg hd (by norm_num)
  · exact div_nonneg hu (by norm_num)

theorem sum_map_filter_mono {α : Type} (l : List α) (p q : α → Bool) (f : α → ℚ)
    (hf : ∀ a ∈ l, 0 ≤ f a) (hpq : ∀ a ∈ l, p a = true → q a = true) :
    ((l.filter p).map f).sum ≤ ((l.filter q).map f).sum := by
  induction l with
  | nil => simp
  | cons a l ih =>
    have hfa : 0 ≤ f a := hf a (List.mem_cons_self a l)
    have ihh := ih (fun x hx => hf x (List.mem_cons_of_mem a hx))
      (fun x hx hpx => hpq x (List.mem_cons_of_mem a hx) hpx)
    by_cases hqa : q a
    · rw [List.filter_cons_of_pos hqa]
      by_cases hpa : p a
      · rw [List.filter_cons_of_pos hpa]
        simp only [List.map_cons, List.sum_cons]
        linarith
      · rw [List.filter_cons_of_neg hpa]
        simp only [List.map_cons, List.sum_cons]
        linarith
    · rw [List.filter_cons_of_neg hqa,
        List.filter_cons_of_neg (fun hc => hqa (hpq a (List.mem_cons_self a l) hc))]
      exact ihh

/-- C8: on every validated batch, the essential-only daily energy total is
at most the essential+medium total, which is at most the all-appliances
total. -/
theorem tier_energy_monotone (b : List Record) :
    essentialTotalEnergy (validate_df b) ≤ essentialMediumTotalEnergy (validate_df b) ∧
    essentialMediumTotalEnergy (validate_df b) ≤ totalEnergy (validate_df b) := by
  constructor
  · unfold essentialTotalEnergy essentialMediumTotalEnergy tierTotalEnergy
    apply sum_map_filter_mono
    · intro r hr
      unfold validate_df at hr
      obtain ⟨r0, _, rfl⟩ := List.mem_map.mp hr
      exact total_daily_energy_validated_nonneg r0
    · intro r _ h
      exact contains_names_mono (validate_df b) r.name h
  · unfold essentialMediumTotalEnergy tierTotalEnergy totalEnergy
    apply sum_map_filter_le
    · intro r hr
      unfold validate_df at hr
      obtain ⟨r0, _, rfl⟩ := List.mem_map.mp hr
      exact total_daily_energy_validated_nonneg r0
    · intro r _ _
      exact le_refl _

theorem clip_idem {lo hi : ℚ} (h : lo ≤ hi) (x : ℚ) :
    clip lo hi (clip lo hi x) = clip lo hi x := by
  unfold clip
  rw [max_eq_right (le_min h (le_max_left lo x)), min_eq_right (min_le_left hi (max lo x))]

theorem clipLo_idem (lo x : ℚ) : clipLo lo (clipLo lo x) = clipLo lo x := by
  unfold clipLo
  exact max_eq_right (le_max_left lo x)

theorem validateRecord_idem (r : Record) :
    validateRecord (validateRecord r) = validateRecord r := by
  unfold validateRecord
  dsimp only
  rw [clip_idem (by norm_num : (0:ℚ) ≤ 100), clipLo_idem,
    clip_idem (by norm_num : (0:ℚ) ≤ 100),
    clip_idem (by norm_num : (1/100 : ℚ) ≤ 1), clipLo_idem]

/-- C9: the Validator is idempotent — validating twice equals validating
once — and it leaves name, schedule, priority and room unchanged. -/
theorem validate_df_idempotent (b : List Record) :
    validate_df (validate_df b) = validate_df b ∧
    (∀ r : Record, (validateRecord r).name = r.name ∧
      (validateRecord r).schedule = r.schedule ∧
      (validateRecord r).priority = r.priority ∧
      (validateRecord r).room = r.room) := by
  constructor
  · unfold validate_df
    rw [List.map_map]
    exact List.map_congr_left (fun r _ => validateRecord_idem r)
  · intro r
    exact ⟨rfl, rfl, rfl, rfl⟩

theorem finRange_12_eq :
    List.finRange 12 = [0, 1, 2, 3, 4, 5, 6, 7, 8, 9, 10, 11] := by decide

theorem isEssential_dupEss : isEssential duplicateEssRec = true := by decide

theorem isEssential_dupNonEss : isEssential duplicateNonEssRec = false := by decide

theorem dupEss_energy (t : Fin 12) :
    compute_energy duplicateEssRec t = if t = 0 then 100 else 0 := by
  by_cases h : t = 0
  · subst h
    norm_num [compute_energy, duplicateEssRec, isOn]
  · simp [compute_energy, duplicateEssRec, isOn, h]

theorem dupNonEss_energy (t : Fin 12) :
    compute_energy duplicateNonEssRec t = if t = 1 then 400 else 0 := by
  by_cases h : t = 1
  · subst h
    norm_num [compute_energy, duplicateNonEssRec, isOn]
  · simp [compute_energy, duplicateNonEssRec, isOn, h]

set_option maxRecDepth 8000 in
theorem dupEss_daily : total_daily_energy duplicateEssRec = 100 := by
  unfold total_daily_energy
  rw [finRange_12_eq]
  simp only [List.map_cons, List.map_nil, List.sum_cons, List.sum_nil, dupEss_energy]
  simp +decide

set_option maxRecDepth 8000 in
theorem dupNonEss_daily : total_daily_energy duplicateNonEssRec = 400 := by
  unfold total_daily_energy
  rw [finRange_12_eq]
  simp only [List.map_cons, List.map_nil, List.sum_cons, List.sum_nil, dupNonEss_energy]
  simp +decide

theorem dup_filter_ess :
    duplicateNameBatch.filter isEssential = [duplicateEssRec] := by
  simp [duplicateNameBatch, List.filter_cons, isEssential_dupEss, isEssential_dupNonEss]

set_option maxRecDepth 8000 in
theorem name_join_sel :
    duplicateNameBatch.filter
      (fun r => ((duplicateNameBatch.filter isEssential).map Record.name).contains r.name) =
      duplicateNameBatch := by
  rw [dup_filter_ess]
  simp +decide [duplicateNameBatch, duplicateEssRec, duplicateNonEssRec, List.filter_cons]

/-- C10: the tier energy totals join on appliance name, not on each row's
own priority: in the batch holding the essential "Fridge" (100 Wh daily)
and the non-essential "Fridge" (400 Wh daily), the essential-only total
energy is 500 Wh, including the non-essential record's energy. -/
theorem tier_energy_name_join_spec :
    isEssential duplicateNonEssRec = false ∧
    total_daily_energy duplicateEssRec = 100 ∧
    total_daily_energy duplicateNonEssRec = 400 ∧
    essentialTotalEnergy duplicateNameBatch = 500 := by
  refine ⟨isEssential_dupNonEss, dupEss_daily, dupNonEss_daily, ?_⟩
  unfold essentialTotalEnergy tierTotalEnergy
  rw [name_join_sel]
  simp only [duplicateNameBatch, List.map_cons, List.map_nil, List.sum_cons,
    List.sum_nil, dupEss_daily, dupNonEss_daily]
  norm_num
